import Mathlib

/-!
Verification development for the wmsproxy repository (Go).

The repository concatenates two historical variants of the proxy in
`src/main.go`; the cached, two-layer variant (the handler at
src/main.go:304-347 together with `getTimestamps` at 200-244 and
`fetchWmsTile` at 255-284) is the one cited by the claims and designated
by the spec as the system of record, so that variant is embedded here.

Modelling conventions:
- machine integers are `Int`/`Nat` (tile indices never approach 64-bit
  bounds in any claim);
- Go standard-library string helpers used by the code
  (`strings.Split`, `strings.TrimSuffix`, `strconv.Atoi`,
  `strconv.ParseBool`) are embedded as `go...` functions with Go's
  observable semantics;
- all network I/O is abstracted into oracle functions passed as
  arguments (`httpGet`, `decodeImage`, `capsOracle`); in exchange every
  outbound call and every `log.Printf` the code performs is recorded in
  an explicit `Effect` trace, so "no upstream call is attempted" and
  "logs the failure" become statements about that trace.  The WMS GetMap
  request is keyed by the tile coordinates rather than by the formatted
  bbox string (the bbox is a fixed pure function of the coordinates,
  modelled separately over `ℝ` by `tileToBoundingBox`);
- wall-clock instants are abstract naturals (Go nanoseconds);
  `time.Now()` becomes an explicit `now` argument;
- a Go runtime panic (the handler indexes `parts[2..4]` without a
  length check) is modelled as the handler returning `none`.
-/

/-- Go `strconv.Atoi`: optional sign followed by at least one decimal
digit, nothing else; `none` models a parse error (the Go code ignores
the error, leaving the zero value, which callers model with `.getD 0`). -/
def goAtoi (s : String) : Option Int :=
  let (sign, digits) :=
    match s.data with
    | '-' :: rest => ((-1 : Int), rest)
    | '+' :: rest => ((1 : Int), rest)
    | l => ((1 : Int), l)
  if digits.length = 0 then none
  else if digits.all (fun c => c.isDigit) then
    some (sign * digits.foldl (fun acc c => acc * 10 + ((c.toNat - 48 : Nat) : Int)) 0)
  else none

/-- Go `strconv.ParseBool`: accepts exactly the thirteen literal forms;
`none` models a parse error. -/
def goParseBool : String → Option Bool
  | "1" | "t" | "T" | "true" | "TRUE" | "True" => some true
  | "0" | "f" | "F" | "false" | "FALSE" | "False" => some false
  | _ => none

/-- Go `strings.TrimSuffix`: drop the given trailing string when present,
otherwise return the input unchanged. -/
def goTrimSuffix (s suf : String) : String :=
  if suf.data.isSuffixOf s.data then
    ⟨s.data.take (s.data.length - suf.data.length)⟩
  else s

/-- Go `strings.Split` with a one-character separator: every separator
occurrence starts a new field, and the result always carries the final
(possibly empty) field, so it is never the empty list. -/
def goSplitChar (sep : Char) (s : String) : List String :=
  let r := s.data.foldl
    (fun (acc : List String × String) c =>
      if c = sep then (acc.1 ++ [acc.2], "") else (acc.1, acc.2.push c))
    ([], "")
  r.1 ++ [r.2]

/-- `WMSInfo` (src/main.go:164-167): base URL and layer name of one
upstream WMS endpoint. -/
structure WMSInfo where
  URL : String
  LayerName : String
deriving DecidableEq

/-- `radarLayers` (src/main.go:169-175): the fixed area-name-to-endpoint
map; `none` models a missing map key. -/
def radarLayers : String → Option WMSInfo
  | "conus" =>
      some ⟨"https://opengeo.ncep.noaa.gov/geoserver/conus/conus_bref_qcd/ows", "conus_bref_qcd"⟩
  | "alaska" =>
      some ⟨"https://opengeo.ncep.noaa.gov/geoserver/alaska/alaska_bref_qcd/ows", "alaska_bref_qcd"⟩
  | "hawaii" =>
      some ⟨"https://opengeo.ncep.noaa.gov/geoserver/hawaii/hawaii_bref_qcd/ows", "hawaii_bref_qcd"⟩
  | "carib" =>
      some ⟨"https://opengeo.ncep.noaa.gov/geoserver/carib/carib_bref_qcd/ows", "carib_bref_qcd"⟩
  | "guam" =>
      some ⟨"https://opengeo.ncep.noaa.gov/geoserver/guam/guam_bref_qcd/ows", "guam_bref_qcd"⟩
  | _ => none

/-- `hazardsLayer` (src/main.go:177): the alerts-overlay endpoint. -/
def hazardsLayer : WMSInfo :=
  ⟨"https://opengeo.ncep.noaa.gov/geoserver/wwa/hazards/ows", "hazards"⟩

/-- `TILE_SIZE` (src/main.go:179). -/
def TILE_SIZE : Nat := 256

/-- `CACHE_DURATION` (src/main.go:180): `5 * time.Minute` in Go
nanoseconds. -/
def CACHE_DURATION : Nat := 5 * 60 * 1000000000

/-- `CacheEntry` (src/main.go:183-186). -/
structure CacheEntry where
  Timestamps : List String
  Expiry : Nat
deriving DecidableEq

/-- The global `cache` map (src/main.go:189), modelled as an association
list; lookups read the first binding for a key. -/
abbrev Cache := List (String × CacheEntry)

/-- Read `cache[area]` (the Go map read at src/main.go:202). -/
def cacheGet (c : Cache) (area : String) : Option CacheEntry :=
  (c.find? (fun p => p.1 == area)).map (fun p => p.2)

/-- Write `cache[area] = entry` (the Go map write at src/main.go:237),
replacing any previous binding. -/
def cacheSet (c : Cache) (area : String) (e : CacheEntry) : Cache :=
  (area, e) :: c.filter (fun p => !(p.1 == area))

/-- Observable side effects of one request: outbound GetMap calls
(keyed by endpoint, tile coordinates and TIME parameter), outbound
GetCapabilities calls, and `log.Printf` lines. -/
inductive Effect where
  | fetchTile (wms : WMSInfo) (x y zoom : Int) (time : String)
  | fetchCaps (url : String)
  | logLine (msg : String)
deriving DecidableEq

/-- True exactly on a `log.Printf` effect. -/
def Effect.isLogLine : Effect → Bool
  | .logLine _ => true
  | _ => false

/-- True exactly on an outbound HTTP effect (GetMap or GetCapabilities). -/
def Effect.isUpstream : Effect → Bool
  | .fetchTile _ _ _ _ _ => true
  | .fetchCaps _ => true
  | .logLine _ => false

/-- The cache hit test of `getTimestamps` (src/main.go:201-207):
`entry, found := cache[area]` followed by
`found && time.Now().Before(entry.Expiry)`; returns the cached
timestamps exactly when an unexpired entry exists. -/
def cacheLookup (cache : Cache) (now : Nat) (area : String) : Option (List String) :=
  match cacheGet cache area with
  | some entry => if now < entry.Expiry then some entry.Timestamps else none
  | none => none

/-- `getTimestamps` (src/main.go:200-244).  The capabilities oracle
collapses the transport call plus `xml.Unmarshal` of the response body:
`.ok dimText` is the `Dimension` chardata of a successfully fetched and
parsed capabilities document, `.error e` is either a transport error or
an XML parse error (both make the Go function return that error).
Returns the result, the cache after the call, and the effect trace. -/
def getTimestamps (capsOracle : String → Except String String) (cache : Cache)
    (now : Nat) (area : String) :
    Except String (List String) × Cache × List Effect :=
  match cacheLookup cache now area with
  | some ts =>
      (Except.ok ts, cache,
        [Effect.logLine ("Returning cached timestamps for '" ++ area ++ "'")])
  | none =>
    let eff0 := [Effect.logLine ("Fetching new timestamps for '" ++ area ++ "'")]
    match radarLayers area with
    | none => (Except.error ("invalid area: " ++ area), cache, eff0)
    | some wmsInfo =>
      let capsURL := wmsInfo.URL ++ "?service=wms&version=1.3.0&request=GetCapabilities"
      let eff1 := eff0 ++ [Effect.fetchCaps capsURL]
      match capsOracle capsURL with
      | Except.error e => (Except.error e, cache, eff1)
      | Except.ok dimText =>
        let timestamps := goSplitChar ',' dimText
        let frameCount := if timestamps.length < 12 then timestamps.length else 12
        let recentTimestamps := timestamps.drop (timestamps.length - frameCount)
        (Except.ok recentTimestamps,
          cacheSet cache area ⟨recentTimestamps, now + CACHE_DURATION⟩,
          eff1)

/-- `fetchWmsTile` (src/main.go:255-284).  `httpGet` is the transport
oracle for the GetMap request (keyed by endpoint, tile coordinates and
TIME): `.error e` is a transport error with message `e`, `.ok (status,
body)` an HTTP response.  `decodeImage` is the `image.Decode` oracle on
the body.  Returns the result and the effect trace of the call. -/
def fetchWmsTile {Image : Type}
    (httpGet : WMSInfo → Int → Int → Int → String → Except String (Nat × String))
    (decodeImage : String → Except String Image)
    (wms : WMSInfo) (x y zoom : Int) (time : String) :
    Except String Image × List Effect :=
  let eff := [Effect.fetchTile wms x y zoom time]
  match httpGet wms x y zoom time with
  | Except.error e => (Except.error e, eff)
  | Except.ok (status, body) =>
    if status ≠ 200 then
      (Except.error ("WMS server returned status " ++ toString status), eff)
    else
      match decodeImage body with
      | Except.error e => (Except.error e, eff)
      | Except.ok img => (Except.ok img, eff)

/-- The HTTP reply written by a handler: `http.Error` with a message and
a status code, or a 200 `image/png` body encoding the given image. -/
inductive HttpResponse (Image : Type) where
  | error (msg : String) (status : Nat)
  | png (img : Image)
deriving DecidableEq

/-- Status code of a reply (a `png` reply is written with status 200). -/
def statusOf {Image : Type} : HttpResponse Image → Nat
  | .error _ s => s
  | .png _ => 200

/-- The timestamp-resolution block of `tileHandler`
(src/main.go:316-324): when the `time` query parameter is empty, call
`getTimestamps` and take the last entry; an error or an empty list makes
the handler answer 500.  `Except.error ()` marks that 500 path. -/
def resolveTimestamp (capsOracle : String → Except String String) (cache : Cache)
    (now : Nat) (area timeParam : String) :
    Except Unit String × Cache × List Effect :=
  if timeParam = "" then
    match getTimestamps capsOracle cache now area with
    | (Except.ok ts, c2, eff) =>
      if ts.length = 0 then (Except.error (), c2, eff)
      else (Except.ok (ts.getLastD ""), c2, eff)
    | (Except.error _, c2, eff) => (Except.error (), c2, eff)
  else (Except.ok timeParam, cache, [])

/-- The zoom the handler parses from path segment 2 (src/main.go:306):
`strconv.Atoi` with the error discarded, so a failed parse leaves 0. -/
def pathZoom (path : String) : Int :=
  (goAtoi ((goSplitChar '/' path).getD 2 "")).getD 0

/-- The x index the handler parses from path segment 3 (src/main.go:307). -/
def pathX (path : String) : Int :=
  (goAtoi ((goSplitChar '/' path).getD 3 "")).getD 0

/-- The y index the handler parses from path segment 4 after trimming a
`.png` suffix (src/main.go:308). -/
def pathY (path : String) : Int :=
  (goAtoi (goTrimSuffix ((goSplitChar '/' path).getD 4 "") ".png")).getD 0

/-- The area the handler uses (src/main.go:311-314): the query value
verbatim, defaulting to `conus` when absent; no case folding. -/
def defaultArea (areaParam : String) : String :=
  if areaParam = "" then "conus" else areaParam

/-- `radarInfo, _ := radarLayers[area]` (src/main.go:326): the `ok`
flag is discarded, so a missing key leaves the zero `WMSInfo`. -/
def radarInfoOf (area : String) : WMSInfo :=
  (radarLayers area).getD ⟨"", ""⟩

/-- `tileHandler` (src/main.go:304-347), the cached two-layer variant.
The request is given by its URL path and its three query parameters
(`""` models an absent parameter, which is what Go's `Query().Get`
returns).  `composite` abstracts the `image/draw` compositing block at
src/main.go:338-341.  The result is `none` when the Go code panics
(fewer than five path segments: `parts[4]` is read unconditionally),
otherwise the reply, the cache after the request, and the effect trace.
Note the variant embedded here checks neither the segment count, nor
`strconv.Atoi` errors (failed parses leave the zero value), nor the
zoom range, nor the area name (`radarLayers[area]` discards `ok`, a
missing key leaving the zero `WMSInfo`), and applies no case folding to
`area`. -/
def tileHandler {Image : Type} (composite : Image → Image → Image)
    (httpGet : WMSInfo → Int → Int → Int → String → Except String (Nat × String))
    (decodeImage : String → Except String Image)
    (capsOracle : String → Except String String)
    (cache : Cache) (now : Nat) (path areaParam alertsParam timeParam : String) :
    Option (HttpResponse Image × Cache × List Effect) :=
  if (goSplitChar '/' path).length < 5 then none else
  let zoom := pathZoom path
  let x := pathX path
  let y := pathY path
  let area := defaultArea areaParam
  let showAlerts := (goParseBool alertsParam).getD false
  match resolveTimestamp capsOracle cache now area timeParam with
  | (Except.error _, c2, eff) =>
    some (HttpResponse.error "Could not get latest timestamp" 500, c2, eff)
  | (Except.ok timestamp, c2, eff) =>
    let radarInfo := radarInfoOf area
    match fetchWmsTile httpGet decodeImage radarInfo x y zoom timestamp with
    | (Except.error e, eff2) => some (HttpResponse.error e 500, c2, eff ++ eff2)
    | (Except.ok radarImg, eff2) =>
      if showAlerts then
        match fetchWmsTile httpGet decodeImage hazardsLayer x y zoom timestamp with
        | (Except.ok alertsImg, eff3) =>
          some (HttpResponse.png (composite radarImg alertsImg), c2, eff ++ eff2 ++ eff3)
        | (Except.error _, eff3) =>
          some (HttpResponse.png radarImg, c2, eff ++ eff2 ++ eff3)
      else some (HttpResponse.png radarImg, c2, eff ++ eff2)

/-- `BoundingBox`: the four EPSG:3857 coordinates produced by
`tileToBoundingBox`, over the reals. -/
structure BoundingBox where
  minX : ℝ
  minY : ℝ
  maxX : ℝ
  maxY : ℝ

/-- `tileToBoundingBox` (src/main.go:246-253), with the IEEE doubles
read as reals and `math.Pi` as `π`.  The zoom is an `Int` because the
handler passes it unvalidated (`math.Pow(2, zoom)` is `2^zoom` also for
negative zoom). -/
noncomputable def tileToBoundingBox (x y zoom : Int) : BoundingBox :=
  let resolution : ℝ := (2 * Real.pi * 6378137) / (TILE_SIZE : ℝ) / (2 : ℝ) ^ zoom
  let minX : ℝ := -20037508.3427892 + (x : ℝ) * resolution * (TILE_SIZE : ℝ)
  let maxY : ℝ := 20037508.3427892 - (y : ℝ) * resolution * (TILE_SIZE : ℝ)
  let maxX : ℝ := minX + resolution * (TILE_SIZE : ℝ)
  let minY : ℝ := maxY - resolution * (TILE_SIZE : ℝ)
  ⟨minX, minY, maxX, maxY⟩

/-- Tile width in projected meters. -/
noncomputable def bboxWidth (b : BoundingBox) : ℝ := b.maxX - b.minX

/-- The shape every entry ever stored in the cache has: `getTimestamps`
only stores slices of length `min 12 (number of split fields)`, which is
between 1 and 12. -/
def cacheWF (c : Cache) : Prop :=
  ∀ p ∈ c, 1 ≤ p.2.Timestamps.length ∧ p.2.Timestamps.length ≤ 12

/-- Go `strings.Split` never returns an empty slice: the final
(possibly empty) field is always present. -/
theorem goSplitChar_length_pos (sep : Char) (s : String) :
    0 < (goSplitChar sep s).length := by
  simp [goSplitChar]

/-- A successful cache hit reads the timestamps of some entry actually
stored in the cache. -/
theorem cacheLookup_mem {c : Cache} {now : Nat} {a : String} {ts : List String}
    (h : cacheLookup c now a = some ts) :
    ∃ p, p ∈ c ∧ p.2.Timestamps = ts := by
  unfold cacheLookup cacheGet at h
  rcases hf : c.find? (fun p => p.1 == a) with _ | p
  · rw [hf] at h; simp at h
  · rw [hf] at h
    dsimp only [Option.map] at h
    split at h
    · exact ⟨p, List.mem_of_find?_eq_some hf, by injection h⟩
    · exact absurd h (by simp)

/-- The slice `timestamps[len-frameCount:]` kept by `getTimestamps` has
between 1 and 12 elements whenever the split list is non-empty. -/
theorem recentBounds (l : List String) (hl : 0 < l.length) :
    1 ≤ (l.drop (l.length - (if l.length < 12 then l.length else 12))).length ∧
    (l.drop (l.length - (if l.length < 12 then l.length else 12))).length ≤ 12 := by
  simp only [List.length_drop]
  rcases lt_or_ge l.length 12 with h12 | h12
  · rw [if_pos h12]; omega
  · rw [if_neg (not_lt.mpr h12)]; omega

/-- One call to `fetchWmsTile` performs exactly one outbound GetMap
request, whatever the outcome. -/
theorem fetchWmsTile_eff {Image : Type}
    (httpGet : WMSInfo → Int → Int → Int → String → Except String (Nat × String))
    (decodeImage : String → Except String Image)
    (w : WMSInfo) (x y zoom : Int) (t : String) :
    (fetchWmsTile httpGet decodeImage w x y zoom t).2 = [Effect.fetchTile w x y zoom t] := by
  unfold fetchWmsTile
  rcases hg : httpGet w x y zoom t with e | ⟨status, body⟩
  · rfl
  · dsimp only
    split
    · rfl
    · rcases decodeImage body with e | img <;> rfl

/-- Every reply the handler writes is a 200 PNG or a 500 error: the
embedded variant has no 400 branch at all. -/
theorem tileHandler_status {Image : Type} (composite : Image → Image → Image)
    (httpGet : WMSInfo → Int → Int → Int → String → Except String (Nat × String))
    (decodeImage : String → Except String Image)
    (capsOracle : String → Except String String)
    (cache : Cache) (now : Nat) (path areaParam alertsParam timeParam : String) :
    ∀ out, tileHandler composite httpGet decodeImage capsOracle cache now
        path areaParam alertsParam timeParam = some out →
      statusOf out.1 = 200 ∨ statusOf out.1 = 500 := by
  intro out h
  unfold tileHandler at h
  split at h
  · exact Option.noConfusion h
  · dsimp only at h
    split at h
    · injection h with h2; subst h2; right; rfl
    · split at h
      · injection h with h2; subst h2; right; rfl
      · split at h
        · split at h
          · injection h with h2; subst h2; left; rfl
          · injection h with h2; subst h2; left; rfl
        · injection h with h2; subst h2; left; rfl

/-- With an area that is not a `radarLayers` key and no `time`
parameter, the handler fails inside `getTimestamps` before any outbound
request: it answers 500, leaves the cache unchanged, and the only
effect is the log line. -/
theorem tileHandler_unknownArea {Image : Type} (composite : Image → Image → Image)
    (httpGet : WMSInfo → Int → Int → Int → String → Except String (Nat × String))
    (decodeImage : String → Except String Image)
    (capsOracle : String → Except String String)
    (cache : Cache) (now : Nat) (path areaParam alertsParam : String)
    (hlen : 5 ≤ (goSplitChar '/' path).length)
    (harea : radarLayers (defaultArea areaParam) = none)
    (hcg : cacheGet cache (defaultArea areaParam) = none) :
    tileHandler composite httpGet decodeImage capsOracle cache now path areaParam alertsParam "" =
      some (HttpResponse.error "Could not get latest timestamp" 500, cache,
        [Effect.logLine ("Fetching new timestamps for '" ++ defaultArea areaParam ++ "'")]) := by
  unfold tileHandler
  rw [if_neg (by omega)]
  dsimp only
  unfold resolveTimestamp
  rw [if_pos rfl]
  unfold getTimestamps cacheLookup
  rw [hcg]
  dsimp only
  rw [harea]

/-- Claim C1 counterexample: `GET /tiles/99/0/0.png` with an explicit
`time` parameter is not rejected: the handler answers a 200 PNG and
performs an upstream GetMap at zoom 99 (any 200-returning upstream
oracle exhibits this), contradicting "responds HTTP 400 BadRequest and
no upstream call is attempted". -/
theorem C1_zoom99_counterexample :
    @tileHandler Nat (fun a _ => a)
        (fun _ _ _ _ _ => Except.ok (200, "body")) (fun _ => Except.ok 0)
        (fun _ => Except.ok "") [] 0 "/tiles/99/0/0.png" "" "" "2024" =
      some (HttpResponse.png 0, [],
        [Effect.fetchTile
          ⟨"https://opengeo.ncep.noaa.gov/geoserver/conus/conus_bref_qcd/ows",
           "conus_bref_qcd"⟩ 0 0 99 "2024"]) ∧
    statusOf (HttpResponse.png (0 : Nat)) ≠ 400 ∧
    Effect.isUpstream (Effect.fetchTile
      ⟨"https://opengeo.ncep.noaa.gov/geoserver/conus/conus_bref_qcd/ows",
       "conus_bref_qcd"⟩ 0 0 99 "2024") = true := by
  refine ⟨by decide, by decide, by rfl⟩

/-- Claim C1, amended: the embedded tile handler performs no zoom
validation at all.  For every request whose path splits into at least 5
segments and which carries an explicit `time` parameter, whatever zoom
the path parses to (99, negative, anything), the handler proceeds to
attempt the base tile fetch at exactly that zoom and never answers
400. -/
theorem C1_no_zoom_validation {Image : Type} (composite : Image → Image → Image)
    (httpGet : WMSInfo → Int → Int → Int → String → Except String (Nat × String))
    (decodeImage : String → Except String Image)
    (capsOracle : String → Except String String)
    (cache : Cache) (now : Nat) (path areaParam alertsParam timeParam : String)
    (hlen : 5 ≤ (goSplitChar '/' path).length) (ht : timeParam ≠ "") :
    ∃ out, tileHandler composite httpGet decodeImage capsOracle cache now
        path areaParam alertsParam timeParam = some out ∧
      statusOf out.1 ≠ 400 ∧
      Effect.fetchTile (radarInfoOf (defaultArea areaParam))
        (pathX path) (pathY path) (pathZoom path) timeParam ∈ out.2.2 := by
  unfold tileHandler
  rw [if_neg (by omega)]
  dsimp only
  unfold resolveTimestamp
  rw [if_neg ht]
  dsimp only
  have heff := fetchWmsTile_eff httpGet decodeImage (radarInfoOf (defaultArea areaParam))
    (pathX path) (pathY path) (pathZoom path) timeParam
  rcases hfb : fetchWmsTile httpGet decodeImage (radarInfoOf (defaultArea areaParam))
      (pathX path) (pathY path) (pathZoom path) timeParam with ⟨fres, feff⟩
  rw [hfb] at heff
  dsimp only at heff
  rcases fres with e | img
  · exact ⟨_, rfl, by simp [statusOf], by simp [heff]⟩
  · rcases hsa : (goParseBool alertsParam).getD false with _ | _
    · exact ⟨_, rfl, by simp [statusOf], by simp [heff]⟩
    · rcases hfa : fetchWmsTile httpGet decodeImage hazardsLayer
          (pathX path) (pathY path) (pathZoom path) timeParam with ⟨fres2, feff2⟩
      rcases fres2 with e2 | img2
      · exact ⟨_, rfl, by simp [statusOf], by simp [heff]⟩
      · exact ⟨_, rfl, by simp [statusOf], by simp [heff]⟩

/-- Claim C1 witness: the amended theorem instantiated at the
`/tiles/99/0/0.png` request. -/
theorem C1_no_zoom_validation_witness :
    5 ≤ (goSplitChar '/' "/tiles/99/0/0.png").length ∧ ("2024" : String) ≠ "" ∧
    (∃ out, @tileHandler Nat (fun a _ => a)
        (fun _ _ _ _ _ => Except.ok (200, "body")) (fun _ => Except.ok 0)
        (fun _ => Except.ok "") [] 0 "/tiles/99/0/0.png" "" "" "2024" = some out ∧
      statusOf out.1 ≠ 400 ∧
      Effect.fetchTile (radarInfoOf (defaultArea ""))
        (pathX "/tiles/99/0/0.png") (pathY "/tiles/99/0/0.png")
        (pathZoom "/tiles/99/0/0.png") "2024" ∈ out.2.2) :=
  ⟨by decide, by decide,
    C1_no_zoom_validation (fun a _ => a) (fun _ _ _ _ _ => Except.ok (200, "body"))
      (fun _ => Except.ok 0) (fun _ => Except.ok "") [] 0
      "/tiles/99/0/0.png" "" "" "2024" (by decide) (by decide)⟩

/-- Claim C2 counterexample: `GET /tiles/8/79/98.png?area=mars` (no
`time` parameter, empty cache) is answered with HTTP 500 "Could not get
latest timestamp", not with HTTP 400: the handler never validates the
area itself, the failure surfaces from `getTimestamps`. -/
theorem C2_area_mars_counterexample :
    @tileHandler Nat (fun a _ => a)
        (fun _ _ _ _ _ => Except.ok (200, "body")) (fun _ => Except.ok 0)
        (fun _ => Except.ok "") [] 0 "/tiles/8/79/98.png" "mars" "" "" =
      some (HttpResponse.error "Could not get latest timestamp" 500, [],
        [Effect.logLine "Fetching new timestamps for 'mars'"]) ∧
    statusOf (HttpResponse.error "Could not get latest timestamp" 500
      : HttpResponse Nat) = 500 := by
  refine ⟨by decide, by rfl⟩

/-- Claim C2, amended: with an area (after defaulting) that is not one
of the five configured names, no `time` parameter and no cache entry
under that area, the handler answers HTTP 500 "Could not get latest
timestamp" — not 400 — and attempts no upstream call (its whole effect
trace filters to no upstream effect). -/
theorem C2_unknown_area_500 {Image : Type} (composite : Image → Image → Image)
    (httpGet : WMSInfo → Int → Int → Int → String → Except String (Nat × String))
    (decodeImage : String → Except String Image)
    (capsOracle : String → Except String String)
    (cache : Cache) (now : Nat) (path areaParam alertsParam : String)
    (hlen : 5 ≤ (goSplitChar '/' path).length)
    (harea : radarLayers (defaultArea areaParam) = none)
    (hcg : cacheGet cache (defaultArea areaParam) = none) :
    tileHandler composite httpGet decodeImage capsOracle cache now path areaParam alertsParam "" =
      some (HttpResponse.error "Could not get latest timestamp" 500, cache,
        [Effect.logLine ("Fetching new timestamps for '" ++ defaultArea areaParam ++ "'")]) ∧
    (tileHandler composite httpGet decodeImage capsOracle cache now path areaParam alertsParam "").map
      (fun out => out.2.2.filter Effect.isUpstream) = some [] := by
  have h := tileHandler_unknownArea composite httpGet decodeImage capsOracle cache now
    path areaParam alertsParam hlen harea hcg
  exact ⟨h, by rw [h]; rfl⟩

/-- Claim C2 witness: the amended theorem instantiated at the
`area=mars` request over the empty cache. -/
theorem C2_unknown_area_500_witness :
    5 ≤ (goSplitChar '/' "/tiles/8/79/98.png").length ∧
    radarLayers (defaultArea "mars") = none ∧
    cacheGet [] (defaultArea "mars") = none ∧
    (@tileHandler Nat (fun a _ => a)
        (fun _ _ _ _ _ => Except.ok (200, "body")) (fun _ => Except.ok 0)
        (fun _ => Except.ok "") [] 0 "/tiles/8/79/98.png" "mars" "" "" =
      some (HttpResponse.error "Could not get latest timestamp" 500, [],
        [Effect.logLine ("Fetching new timestamps for '" ++ defaultArea "mars" ++ "'")]) ∧
    (@tileHandler Nat (fun a _ => a)
        (fun _ _ _ _ _ => Except.ok (200, "body")) (fun _ => Except.ok 0)
        (fun _ => Except.ok "") [] 0 "/tiles/8/79/98.png" "mars" "" "").map
      (fun out => out.2.2.filter Effect.isUpstream) = some []) :=
  ⟨by decide, by decide, by decide,
    C2_unknown_area_500 (fun a _ => a) (fun _ _ _ _ _ => Except.ok (200, "body"))
      (fun _ => Except.ok 0) (fun _ => Except.ok "") [] 0
      "/tiles/8/79/98.png" "mars" "" (by decide) (by decide) (by decide)⟩

/-- Claim C3 counterexample: a run where only the alerts overlay fetch
fails (the oracle errors exactly on the hazards layer).  The handler
does return the unmodified base image as a 200 PNG, but it emits no log
at all — the effect trace holds the two GetMap attempts and nothing
else — contradicting "logs the failure". -/
theorem C3_no_log_counterexample :
    @tileHandler Nat (fun a b => a * 1000 + b)
        (fun wms _ _ _ _ =>
          if wms.LayerName == "hazards" then Except.error "boom" else Except.ok (200, "img"))
        (fun _ => Except.ok 7) (fun _ => Except.error "nocaps")
        [] 0 "/tiles/1/2/3.png" "" "true" "t" =
      some (HttpResponse.png 7, [],
        [Effect.fetchTile
          ⟨"https://opengeo.ncep.noaa.gov/geoserver/conus/conus_bref_qcd/ows",
           "conus_bref_qcd"⟩ 2 3 1 "t",
         Effect.fetchTile hazardsLayer 2 3 1 "t"]) ∧
    ([Effect.fetchTile
        ⟨"https://opengeo.ncep.noaa.gov/geoserver/conus/conus_bref_qcd/ows",
         "conus_bref_qcd"⟩ 2 3 1 "t",
      Effect.fetchTile hazardsLayer 2 3 1 "t"].filter Effect.isLogLine) = [] := by
  refine ⟨by decide, by rfl⟩

/-- Claim C3, amended: for every request past path parsing with an
explicit `time` parameter, (a) if the base radar fetch fails (transport
error, non-200 status, or decode failure, all surfacing as
`Except.error` from `fetchWmsTile`) the handler answers 500 with that
error message and returns no image; (b) if the base fetch succeeds,
alerts are requested, and only the overlay fetch fails, the handler
silently — without emitting any log — returns the unmodified base image
as a 200 PNG. -/
theorem C3_base_fails_500_overlay_fails_silent {Image : Type}
    (composite : Image → Image → Image)
    (httpGet : WMSInfo → Int → Int → Int → String → Except String (Nat × String))
    (decodeImage : String → Except String Image)
    (capsOracle : String → Except String String)
    (cache : Cache) (now : Nat) (path areaParam timeParam : String)
    (hlen : 5 ≤ (goSplitChar '/' path).length) (ht : timeParam ≠ "") :
    (∀ (alertsParam e : String),
      (fetchWmsTile httpGet decodeImage (radarInfoOf (defaultArea areaParam))
        (pathX path) (pathY path) (pathZoom path) timeParam).1 = Except.error e →
      tileHandler composite httpGet decodeImage capsOracle cache now
          path areaParam alertsParam timeParam =
        some (HttpResponse.error e 500, cache,
          [Effect.fetchTile (radarInfoOf (defaultArea areaParam))
            (pathX path) (pathY path) (pathZoom path) timeParam])) ∧
    (∀ (img : Image) (e2 : String),
      (fetchWmsTile httpGet decodeImage (radarInfoOf (defaultArea areaParam))
        (pathX path) (pathY path) (pathZoom path) timeParam).1 = Except.ok img →
      (fetchWmsTile httpGet decodeImage hazardsLayer
        (pathX path) (pathY path) (pathZoom path) timeParam).1 = Except.error e2 →
      tileHandler composite httpGet decodeImage capsOracle cache now
          path areaParam "true" timeParam =
        some (HttpResponse.png img, cache,
          [Effect.fetchTile (radarInfoOf (defaultArea areaParam))
            (pathX path) (pathY path) (pathZoom path) timeParam,
           Effect.fetchTile hazardsLayer
            (pathX path) (pathY path) (pathZoom path) timeParam]) ∧
      ([Effect.fetchTile (radarInfoOf (defaultArea areaParam))
          (pathX path) (pathY path) (pathZoom path) timeParam,
        Effect.fetchTile hazardsLayer
          (pathX path) (pathY path) (pathZoom path) timeParam].filter Effect.isLogLine) = []) := by
  constructor
  · intro alertsParam e he
    have heff := fetchWmsTile_eff httpGet decodeImage (radarInfoOf (defaultArea areaParam))
      (pathX path) (pathY path) (pathZoom path) timeParam
    unfold tileHandler
    rw [if_neg (by omega)]
    dsimp only
    unfold resolveTimestamp
    rw [if_neg ht]
    dsimp only
    rcases hfb : fetchWmsTile httpGet decodeImage (radarInfoOf (defaultArea areaParam))
        (pathX path) (pathY path) (pathZoom path) timeParam with ⟨fres, feff⟩
    rw [hfb] at he heff
    dsimp only at he heff
    subst he
    subst heff
    rfl
  · intro img e2 hb ha2
    have heff := fetchWmsTile_eff httpGet decodeImage (radarInfoOf (defaultArea areaParam))
      (pathX path) (pathY path) (pathZoom path) timeParam
    have heff2 := fetchWmsTile_eff httpGet decodeImage hazardsLayer
      (pathX path) (pathY path) (pathZoom path) timeParam
    refine ⟨?_, rfl⟩
    unfold tileHandler
    rw [if_neg (by omega)]
    dsimp only
    unfold resolveTimestamp
    rw [if_neg ht]
    dsimp only
    rcases hfb : fetchWmsTile httpGet decodeImage (radarInfoOf (defaultArea areaParam))
        (pathX path) (pathY path) (pathZoom path) timeParam with ⟨fres, feff⟩
    rw [hfb] at hb heff
    dsimp only at hb heff
    subst hb
    subst heff
    rcases hfa : fetchWmsTile httpGet decodeImage hazardsLayer
        (pathX path) (pathY path) (pathZoom path) timeParam with ⟨fres2, feff2⟩
    rw [hfa] at ha2 heff2
    dsimp only at ha2 heff2
    subst ha2
    subst heff2
    rfl

/-- Claim C3 witness: part (a) instantiated with an oracle whose base
fetch fails ("down"), part (b) with an oracle failing exactly on the
hazards layer ("boom"). -/
theorem C3_base_fails_500_overlay_fails_silent_witness :
    5 ≤ (goSplitChar '/' "/tiles/1/2/3.png").length ∧ ("t" : String) ≠ "" ∧
    @tileHandler Nat (fun a b => a * 1000 + b)
        (fun _ _ _ _ _ => Except.error "down") (fun _ => Except.ok 7)
        (fun _ => Except.error "nocaps") [] 0 "/tiles/1/2/3.png" "" "x" "t" =
      some (HttpResponse.error "down" 500, [],
        [Effect.fetchTile (radarInfoOf (defaultArea ""))
          (pathX "/tiles/1/2/3.png") (pathY "/tiles/1/2/3.png")
          (pathZoom "/tiles/1/2/3.png") "t"]) ∧
    (@tileHandler Nat (fun a b => a * 1000 + b)
        (fun wms _ _ _ _ =>
          if wms.LayerName == "hazards" then Except.error "boom" else Except.ok (200, "img"))
        (fun _ => Except.ok 7) (fun _ => Except.error "nocaps")
        [] 0 "/tiles/1/2/3.png" "" "true" "t" =
      some (HttpResponse.png 7, [],
        [Effect.fetchTile (radarInfoOf (defaultArea ""))
          (pathX "/tiles/1/2/3.png") (pathY "/tiles/1/2/3.png")
          (pathZoom "/tiles/1/2/3.png") "t",
         Effect.fetchTile hazardsLayer
          (pathX "/tiles/1/2/3.png") (pathY "/tiles/1/2/3.png")
          (pathZoom "/tiles/1/2/3.png") "t"]) ∧
    ([Effect.fetchTile (radarInfoOf (defaultArea ""))
        (pathX "/tiles/1/2/3.png") (pathY "/tiles/1/2/3.png")
        (pathZoom "/tiles/1/2/3.png") "t",
      Effect.fetchTile hazardsLayer
        (pathX "/tiles/1/2/3.png") (pathY "/tiles/1/2/3.png")
        (pathZoom "/tiles/1/2/3.png") "t"].filter Effect.isLogLine) = []) :=
  ⟨by decide, by decide,
    (C3_base_fails_500_overlay_fails_silent (fun a b => a * 1000 + b)
      (fun _ _ _ _ _ => Except.error "down")
      (fun _ => Except.ok 7) (fun _ => Except.error "nocaps") [] 0
      "/tiles/1/2/3.png" "" "t" (by decide) (by decide)).1 "x" "down" (by rfl),
    (C3_base_fails_500_overlay_fails_silent (fun a b => a * 1000 + b)
      (fun wms _ _ _ _ =>
        if wms.LayerName == "hazards" then Except.error "boom" else Except.ok (200, "img"))
      (fun _ => Except.ok 7) (fun _ => Except.error "nocaps") [] 0
      "/tiles/1/2/3.png" "" "t" (by decide) (by decide)).2 7 "boom" (by rfl) (by rfl)⟩

/-- Claim C4: on a cache miss or an expired entry, with a configured
area and a successful capabilities fetch and parse, `getTimestamps`
returns exactly the last `min 12 (length of the comma-split list)`
entries of the split Dimension text (a slice of that exact length that
is a suffix of the split list), stores the same slice under the area
name with expiry `now + CACHE_DURATION`, and its effects are the log
line plus exactly one GetCapabilities call. -/
theorem C4_refresh_last_min12
    (capsOracle : String → Except String String) (cache : Cache) (now : Nat)
    (area : String) (wmsInfo : WMSInfo) (dimText : String)
    (hmiss : cacheLookup cache now area = none)
    (harea : radarLayers area = some wmsInfo)
    (hcaps : capsOracle (wmsInfo.URL ++ "?service=wms&version=1.3.0&request=GetCapabilities") =
      Except.ok dimText) :
    ∃ recent,
      getTimestamps capsOracle cache now area =
        (Except.ok recent, cacheSet cache area ⟨recent, now + CACHE_DURATION⟩,
          [Effect.logLine ("Fetching new timestamps for '" ++ area ++ "'"),
           Effect.fetchCaps (wmsInfo.URL ++ "?service=wms&version=1.3.0&request=GetCapabilities")]) ∧
      recent.length = min 12 (goSplitChar ',' dimText).length ∧
      recent <:+ goSplitChar ',' dimText := by
  unfold getTimestamps
  rw [hmiss, harea]
  dsimp only
  rw [hcaps]
  refine ⟨_, rfl, ?_, List.drop_suffix _ _⟩
  have := goSplitChar_length_pos ',' dimText
  simp only [List.length_drop]
  rcases lt_or_ge (goSplitChar ',' dimText).length 12 with h12 | h12
  · rw [if_pos h12]; omega
  · rw [if_neg (not_lt.mpr h12)]; omega

/-- Claim C4 witness: a miss on the empty cache for `conus` with
Dimension text "a,b,c". -/
theorem C4_refresh_last_min12_witness :
    cacheLookup [] 0 "conus" = none ∧
    radarLayers "conus" =
      some ⟨"https://opengeo.ncep.noaa.gov/geoserver/conus/conus_bref_qcd/ows",
        "conus_bref_qcd"⟩ ∧
    (∃ recent,
      getTimestamps (fun _ => Except.ok "a,b,c") [] 0 "conus" =
        (Except.ok recent, cacheSet [] "conus" ⟨recent, 0 + CACHE_DURATION⟩,
          [Effect.logLine ("Fetching new timestamps for '" ++ "conus" ++ "'"),
           Effect.fetchCaps
             ((⟨"https://opengeo.ncep.noaa.gov/geoserver/conus/conus_bref_qcd/ows",
               "conus_bref_qcd"⟩ : WMSInfo).URL ++
               "?service=wms&version=1.3.0&request=GetCapabilities")]) ∧
      recent.length = min 12 (goSplitChar ',' "a,b,c").length ∧
      recent <:+ goSplitChar ',' "a,b,c") :=
  ⟨by decide, by decide,
    C4_refresh_last_min12 (fun _ => Except.ok "a,b,c") [] 0 "conus"
      ⟨"https://opengeo.ncep.noaa.gov/geoserver/conus/conus_bref_qcd/ows",
        "conus_bref_qcd"⟩ "a,b,c" (by decide) (by decide) (by rfl)⟩

/-- Claim C5: when the cache holds an entry for the area that is
unexpired at both instants, `getTimestamps` returns that entry's
timestamp sequence verbatim at both instants, leaves the cache exactly
as it was, and performs no upstream effect in either call — so two
calls within the TTL window return identical sequences with no
upstream fetch between them. -/
theorem C5_cache_hit_verbatim
    (capsOracle : String → Except String String) (cache : Cache)
    (area : String) (entry : CacheEntry) (now1 now2 : Nat)
    (hentry : cacheGet cache area = some entry)
    (h1 : now1 < entry.Expiry) (h2 : now2 < entry.Expiry) :
    getTimestamps capsOracle cache now1 area =
      (Except.ok entry.Timestamps, cache,
        [Effect.logLine ("Returning cached timestamps for '" ++ area ++ "'")]) ∧
    getTimestamps capsOracle cache now2 area =
      (Except.ok entry.Timestamps, cache,
        [Effect.logLine ("Returning cached timestamps for '" ++ area ++ "'")]) ∧
    ((getTimestamps capsOracle cache now1 area).2.2 ++
     (getTimestamps capsOracle cache now2 area).2.2).filter Effect.isUpstream = [] := by
  have hl1 : cacheLookup cache now1 area = some entry.Timestamps := by
    unfold cacheLookup; rw [hentry]; simp [h1]
  have hl2 : cacheLookup cache now2 area = some entry.Timestamps := by
    unfold cacheLookup; rw [hentry]; simp [h2]
  have e1 : getTimestamps capsOracle cache now1 area =
      (Except.ok entry.Timestamps, cache,
        [Effect.logLine ("Returning cached timestamps for '" ++ area ++ "'")]) := by
    unfold getTimestamps; rw [hl1]
  have e2 : getTimestamps capsOracle cache now2 area =
      (Except.ok entry.Timestamps, cache,
        [Effect.logLine ("Returning cached timestamps for '" ++ area ++ "'")]) := by
    unfold getTimestamps; rw [hl2]
  refine ⟨e1, e2, ?_⟩
  rw [e1, e2]
  simp [Effect.isUpstream]

/-- Claim C5 witness: a cache holding `("conus", ["x","y"], expiry 10)`
read at instants 3 and 5. -/
theorem C5_cache_hit_verbatim_witness :
    cacheGet [("conus", ⟨["x", "y"], 10⟩)] "conus" = some ⟨["x", "y"], 10⟩ ∧
    (3 : Nat) < (10 : Nat) ∧ (5 : Nat) < (10 : Nat) ∧
    (getTimestamps (fun _ => Except.ok "a,b") [("conus", ⟨["x", "y"], 10⟩)] 3 "conus" =
      (Except.ok (["x", "y"] : List String), [("conus", ⟨["x", "y"], 10⟩)],
        [Effect.logLine ("Returning cached timestamps for '" ++ "conus" ++ "'")]) ∧
    getTimestamps (fun _ => Except.ok "a,b") [("conus", ⟨["x", "y"], 10⟩)] 5 "conus" =
      (Except.ok (["x", "y"] : List String), [("conus", ⟨["x", "y"], 10⟩)],
        [Effect.logLine ("Returning cached timestamps for '" ++ "conus" ++ "'")]) ∧
    ((getTimestamps (fun _ => Except.ok "a,b") [("conus", ⟨["x", "y"], 10⟩)] 3 "conus").2.2 ++
     (getTimestamps (fun _ => Except.ok "a,b") [("conus", ⟨["x", "y"], 10⟩)] 5 "conus").2.2).filter
      Effect.isUpstream = []) :=
  ⟨by decide, by decide, by decide,
    C5_cache_hit_verbatim (fun _ => Except.ok "a,b") [("conus", ⟨["x", "y"], 10⟩)] "conus"
      ⟨["x", "y"], 10⟩ 3 5 (by decide) (by decide) (by decide)⟩

/-- Claim C6 counterexample: `/tiles/abc/def/ghi.png` (non-integer z,
x, y) is not answered with 400 "invalid tile path": the failed parses
are ignored, the coordinates default to 0, and the request proceeds to
a 200 PNG with an upstream fetch at (0,0) zoom 0.  A path with fewer
than five segments (`/tiles/`) makes the Go code panic — modelled as
`none` — rather than answer 400. -/
theorem C6_bad_path_counterexample :
    @tileHandler Nat (fun a _ => a)
        (fun _ _ _ _ _ => Except.ok (200, "body")) (fun _ => Except.ok 0)
        (fun _ => Except.ok "") [] 0 "/tiles/abc/def/ghi.png" "" "" "t" =
      some (HttpResponse.png 0, [],
        [Effect.fetchTile
          ⟨"https://opengeo.ncep.noaa.gov/geoserver/conus/conus_bref_qcd/ows",
           "conus_bref_qcd"⟩ 0 0 0 "t"]) ∧
    goAtoi "abc" = none ∧ pathZoom "/tiles/abc/def/ghi.png" = 0 ∧
    @tileHandler Nat (fun a _ => a)
        (fun _ _ _ _ _ => Except.ok (200, "body")) (fun _ => Except.ok 0)
        (fun _ => Except.ok "") [] 0 "/tiles/" "" "" "t" = none := by
  refine ⟨by decide, by decide, by decide, by decide⟩

/-- Claim C6, amended: the embedded tile handler performs no path
validation.  Whatever reply it produces is never a 400, and a path that
splits into fewer than five segments makes the Go code panic on the
unchecked `parts[4]` index (modelled as `none`) instead of producing a
400 "invalid tile path". -/
theorem C6_no_path_validation {Image : Type} (composite : Image → Image → Image)
    (httpGet : WMSInfo → Int → Int → Int → String → Except String (Nat × String))
    (decodeImage : String → Except String Image)
    (capsOracle : String → Except String String)
    (cache : Cache) (now : Nat) (path areaParam alertsParam timeParam : String) :
    (∀ out, tileHandler composite httpGet decodeImage capsOracle cache now
        path areaParam alertsParam timeParam = some out → statusOf out.1 ≠ 400) ∧
    ((goSplitChar '/' path).length < 5 →
      tileHandler composite httpGet decodeImage capsOracle cache now
        path areaParam alertsParam timeParam = none) := by
  constructor
  · intro out h
    rcases tileHandler_status composite httpGet decodeImage capsOracle cache now
      path areaParam alertsParam timeParam out h with h2 | h2 <;> omega
  · intro hlt
    unfold tileHandler
    rw [if_pos hlt]

/-- Claim C6 witness: the amended theorem instantiated at the
`/tiles/abc/def/ghi.png` run (status shown not 400) and at the short
path `/tiles/` (panic, modelled `none`). -/
theorem C6_no_path_validation_witness :
    statusOf (HttpResponse.png (0 : Nat), ([] : Cache),
      [Effect.fetchTile
        ⟨"https://opengeo.ncep.noaa.gov/geoserver/conus/conus_bref_qcd/ows",
         "conus_bref_qcd"⟩ 0 0 0 "t"]).1 ≠ 400 ∧
    ((goSplitChar '/' "/tiles/").length < 5 ∧
      @tileHandler Nat (fun a _ => a)
        (fun _ _ _ _ _ => Except.ok (200, "body")) (fun _ => Except.ok 0)
        (fun _ => Except.ok "") [] 0 "/tiles/" "" "" "t" = none) :=
  ⟨(C6_no_path_validation (fun a _ => a) (fun _ _ _ _ _ => Except.ok (200, "body"))
      (fun _ => Except.ok 0) (fun _ => Except.ok "") [] 0
      "/tiles/abc/def/ghi.png" "" "" "t").1
      (HttpResponse.png 0, [],
        [Effect.fetchTile
          ⟨"https://opengeo.ncep.noaa.gov/geoserver/conus/conus_bref_qcd/ows",
           "conus_bref_qcd"⟩ 0 0 0 "t"]) (by decide),
   by decide,
   (C6_no_path_validation (fun a _ => a) (fun _ _ _ _ _ => Except.ok (200, "body"))
      (fun _ => Except.ok 0) (fun _ => Except.ok "") [] 0
      "/tiles/" "" "" "t").2 (by decide)⟩

/-- Claim C7 counterexample: under identical oracles and an empty
cache, `area=CONUS` is answered 500 while `area=conus` is answered 200:
the two casings do not resolve to the same configuration, because the
handler applies no case folding and `radarLayers` has no "CONUS"
key. -/
theorem C7_case_fold_counterexample :
    (@tileHandler Nat (fun a _ => a)
        (fun _ _ _ _ _ => Except.ok (200, "body")) (fun _ => Except.ok 0)
        (fun _ => Except.ok "a,b") [] 0 "/tiles/8/79/98.png" "CONUS" "" "").map
      (fun out => statusOf out.1) = some 500 ∧
    (@tileHandler Nat (fun a _ => a)
        (fun _ _ _ _ _ => Except.ok (200, "body")) (fun _ => Except.ok 0)
        (fun _ => Except.ok "a,b") [] 0 "/tiles/8/79/98.png" "conus" "" "").map
      (fun out => statusOf out.1) = some 200 ∧
    radarLayers "CONUS" = none := by
  refine ⟨by decide, by decide, by decide⟩

/-- Claim C7, amended: the area parameter is case-sensitive.  The
handler uses the supplied value verbatim (no case folding); "CONUS" is
not a `radarLayers` key while "conus" is, and with no `time` parameter
and no cache entry a request with `area=CONUS` fails with 500 instead
of resolving to the conus configuration. -/
theorem C7_area_case_sensitive {Image : Type} (composite : Image → Image → Image)
    (httpGet : WMSInfo → Int → Int → Int → String → Except String (Nat × String))
    (decodeImage : String → Except String Image)
    (capsOracle : String → Except String String)
    (cache : Cache) (now : Nat) (path alertsParam : String)
    (hlen : 5 ≤ (goSplitChar '/' path).length)
    (hcg : cacheGet cache "CONUS" = none) :
    tileHandler composite httpGet decodeImage capsOracle cache now path "CONUS" alertsParam "" =
      some (HttpResponse.error "Could not get latest timestamp" 500, cache,
        [Effect.logLine "Fetching new timestamps for 'CONUS'"]) ∧
    radarLayers "CONUS" = none ∧
    radarLayers "conus" =
      some ⟨"https://opengeo.ncep.noaa.gov/geoserver/conus/conus_bref_qcd/ows",
        "conus_bref_qcd"⟩ := by
  refine ⟨?_, rfl, rfl⟩
  exact tileHandler_unknownArea composite httpGet decodeImage capsOracle cache now
    path "CONUS" alertsParam hlen rfl hcg

/-- Claim C7 witness: the amended theorem instantiated over the empty
cache at `/tiles/8/79/98.png`. -/
theorem C7_area_case_sensitive_witness :
    5 ≤ (goSplitChar '/' "/tiles/8/79/98.png").length ∧
    cacheGet [] "CONUS" = none ∧
    (@tileHandler Nat (fun a _ => a)
        (fun _ _ _ _ _ => Except.ok (200, "body")) (fun _ => Except.ok 0)
        (fun _ => Except.ok "a,b") [] 0 "/tiles/8/79/98.png" "CONUS" "" "" =
      some (HttpResponse.error "Could not get latest timestamp" 500, [],
        [Effect.logLine "Fetching new timestamps for 'CONUS'"]) ∧
    radarLayers "CONUS" = none ∧
    radarLayers "conus" =
      some ⟨"https://opengeo.ncep.noaa.gov/geoserver/conus/conus_bref_qcd/ows",
        "conus_bref_qcd"⟩) :=
  ⟨by decide, by decide,
    C7_area_case_sensitive (fun a _ => a) (fun _ _ _ _ _ => Except.ok (200, "body"))
      (fun _ => Except.ok 0) (fun _ => Except.ok "a,b") [] 0
      "/tiles/8/79/98.png" "" (by decide) (by decide)⟩

/-- Claim C8: `tileToBoundingBox 0 0 0` is the whole-world EPSG:3857
box: `minX` and `maxY` equal the origin constants exactly, and `maxX`
and `minY` equal ±20037508.3427892 to within `10 ^ (-7)` (the exact
values are `-20037508.3427892 ± 2·π·6378137`, about `8.6·10 ^ (-8)`
away). -/
theorem C8_world_bbox_zoom0 :
    (tileToBoundingBox 0 0 0).minX = -20037508.3427892 ∧
    (tileToBoundingBox 0 0 0).maxY = 20037508.3427892 ∧
    |(tileToBoundingBox 0 0 0).maxX - 20037508.3427892| < (1 : ℝ) / 10 ^ 7 ∧
    |(tileToBoundingBox 0 0 0).minY - (-20037508.3427892)| < (1 : ℝ) / 10 ^ 7 := by
  have h1 := Real.pi_gt_d20
  have h2 := Real.pi_lt_d20
  simp only [tileToBoundingBox, TILE_SIZE]
  norm_num
  constructor
  · rw [abs_lt]; constructor <;> nlinarith [h1, h2]
  · rw [abs_lt]; constructor <;> nlinarith [h1, h2]

/-- Claim C9: for every zoom `z ≥ 0` (as a natural) and all integer
tile indices, the tile width in meters produced by `tileToBoundingBox`
halves exactly when the zoom increases by one. -/
theorem C9_width_halves (x y : Int) (z : Nat) :
    bboxWidth (tileToBoundingBox x y ((z : Int) + 1)) =
      bboxWidth (tileToBoundingBox x y (z : Int)) / 2 := by
  have hz : (2 : ℝ) ^ ((z : Int) + 1) = (2 : ℝ) ^ (z : Int) * 2 := by
    rw [zpow_add_one₀ (by norm_num)]
  have hne : ((2 : ℝ) ^ (z : Int)) ≠ 0 := zpow_ne_zero _ (by norm_num)
  simp only [bboxWidth, tileToBoundingBox, TILE_SIZE]
  rw [hz]
  field_simp
  ring

/-- Claim C10: starting from a well-formed cache (every stored entry
holds between 1 and 12 timestamps — true of the empty initial cache),
whenever `getTimestamps` returns without error the returned sequence is
non-empty with at most 12 elements and the cache stays well-formed; and
splitting any Dimension text on commas yields at least one field (an
empty text yields one empty string), so the handler's empty-sequence
500 branch is reachable only through a `getTimestamps` error. -/
theorem C10_timestamps_count_invariant
    (capsOracle : String → Except String String) (cache : Cache) (now : Nat)
    (area : String) (hwf : cacheWF cache) :
    (∀ r c2 eff, getTimestamps capsOracle cache now area = (Except.ok r, c2, eff) →
      (1 ≤ r.length ∧ r.length ≤ 12) ∧ cacheWF c2) ∧
    (∀ s : String, 1 ≤ (goSplitChar ',' s).length) ∧
    cacheWF [] := by
  refine ⟨?_, fun s => goSplitChar_length_pos ',' s,
    by intro p hp; exact absurd hp (List.not_mem_nil p)⟩
  intro r c2 eff h
  unfold getTimestamps at h
  rcases hl : cacheLookup cache now area with _ | ts
  · rw [hl] at h
    rcases ha : radarLayers area with _ | wmsInfo
    · rw [ha] at h; simp at h
    · rw [ha] at h
      dsimp only at h
      rcases hc : capsOracle (wmsInfo.URL ++ "?service=wms&version=1.3.0&request=GetCapabilities")
        with e | dimText
      · rw [hc] at h; simp at h
      · rw [hc] at h
        simp only [Prod.mk.injEq, Except.ok.injEq] at h
        obtain ⟨hr, hc2, -⟩ := h
        have hpos := goSplitChar_length_pos ',' dimText
        have hb0 := recentBounds (goSplitChar ',' dimText) hpos
        have hb : 1 ≤ r.length ∧ r.length ≤ 12 := by rw [← hr]; exact hb0
        refine ⟨hb, ?_⟩
        intro p hp
        rw [← hc2] at hp
        unfold cacheSet at hp
        rcases List.mem_cons.mp hp with rfl | hp2
        · exact hb0
        · exact hwf p (List.mem_filter.mp hp2).1
  · rw [hl] at h
    simp only [Prod.mk.injEq, Except.ok.injEq] at h
    obtain ⟨hr, hc2, -⟩ := h
    obtain ⟨p, hpmem, hpts⟩ := cacheLookup_mem hl
    subst hc2
    refine ⟨?_, hwf⟩
    rw [← hr, ← hpts]
    exact hwf p hpmem

/-- Claim C10 witness: the invariant theorem instantiated at the empty
cache with Dimension text "a,b". -/
theorem C10_timestamps_count_invariant_witness :
    cacheWF ([] : Cache) ∧
    ((1 ≤ (["a", "b"] : List String).length ∧ (["a", "b"] : List String).length ≤ 12) ∧
      cacheWF (cacheSet [] "conus" ⟨["a", "b"], 0 + CACHE_DURATION⟩)) :=
  ⟨by unfold cacheWF; decide,
    (C10_timestamps_count_invariant (fun _ => Except.ok "a,b") [] 0 "conus"
        (by unfold cacheWF; decide)).1
      ["a", "b"] (cacheSet [] "conus" ⟨["a", "b"], 0 + CACHE_DURATION⟩)
      [Effect.logLine "Fetching new timestamps for 'conus'",
       Effect.fetchCaps
         "https://opengeo.ncep.noaa.gov/geoserver/conus/conus_bref_qcd/ows?service=wms&version=1.3.0&request=GetCapabilities"]
      (by rfl)⟩
